import Mathlib

/-!
Verification development for the Optimum/ONNX-Runtime optimization tutorial
(`notebook.ipynb`).  The only function authored by the repository itself is
`measure_latency`; it is embedded faithfully below over an abstract pipeline
state and an abstract monotone clock stream.  The pipeline stages the notebook
merely calls into (exporter, graph optimizer, quantizer, evaluator,
publisher/loader) are third-party library code whose implementation is not in
the repository; where a claim is decided by such a stage, the stage is
modelled from the specification and clearly marked as such.
-/

set_option maxRecDepth 16000

namespace OptimumPipeline

/-! ## Numeric statistics, as `numpy` computes them (over `ℚ`)

`np.mean` is the sum divided by the length, `np.std` is the square root of the
population variance (`ddof = 0`), and `np.percentile` with the default linear
interpolation sorts the data and interpolates at rank `(n - 1) * q / 100`.
Since the square root of a rational is in general irrational, the standard
deviation is carried as its square, the population variance: the standard
deviation is a function of that value alone. -/

/-- Arithmetic mean of a list of rationals (`np.mean`); `0` on the empty list. -/
def npMean (l : List ℚ) : ℚ := l.sum / l.length

/-- Population variance of a list of rationals: the square of `np.std` with
`ddof = 0`; `0` on the empty list. -/
def npVariance (l : List ℚ) : ℚ :=
  ((l.map (fun x => (x - npMean l) ^ 2)).sum) / l.length

/-- Linear-interpolation percentile of a list of rationals (`np.percentile`
with the default interpolation): sort, then interpolate at fractional rank
`(n - 1) * q / 100`. -/
def npPercentile (l : List ℚ) (q : ℚ) : ℚ :=
  if l.length = 0 then 0
  else
    let s := l.mergeSort (fun a b => decide (a ≤ b))
    let h : ℚ := ((l.length : ℚ) - 1) * q / 100
    let lo : ℕ := ⌊h⌋.toNat
    let a := s.getD lo 0
    let b := s.getD (lo + 1) a
    a + (h - (lo : ℚ)) * (b - a)

/-! ## The latency benchmarker (`measure_latency`, notebook cell 23)

The python function is

```
def measure_latency(pipe):
    latencies = []
    # warm up
    for _ in range(10):
        _ = pipe(payload)
    # Timed run
    for _ in range(300):
        start_time = perf_counter()
        _ =  pipe(payload)
        latency = perf_counter() - start_time
        latencies.append(latency)
    # Compute run statistics
    time_avg_ms = 1000 * np.mean(latencies)
    time_std_ms = 1000 * np.std(latencies)
    time_p95_ms = 1000 * np.percentile(latencies,95)
    return f"...", time_p95_ms
```

Calling the pipeline is an opaque state transformation `pipe : σ → σ` (the
payload is fixed in the enclosing scope, so it does not vary between calls).
`perf_counter` is a read from a clock stream `t : ℕ → ℚ`: the `k`-th call to
`perf_counter` anywhere in the run returns `t k`.  `MeasureState` carries the
pipeline state together with the number of clock reads made so far.  The
warm-up loop calls the pipeline but never reads the clock; each timed
iteration reads the clock, calls the pipeline, reads the clock again and
appends the difference. -/

/-- Abstract run state: the pipeline's internal state (caches, lazily
initialized kernels, ...) plus the number of `perf_counter` reads made so
far. -/
structure MeasureState (σ : Type*) where
  pipeState : σ
  reads : ℕ

/-- One `perf_counter()` call: return the next value of the clock stream and
advance the read counter. -/
def perfCounter {σ : Type*} (t : ℕ → ℚ) (s : MeasureState σ) : ℚ × MeasureState σ :=
  (t s.reads, { s with reads := s.reads + 1 })

/-- One `pipe(payload)` call: transform the pipeline state; the clock is not
read. -/
def invokePipe {σ : Type*} (pipe : σ → σ) (s : MeasureState σ) : MeasureState σ :=
  { s with pipeState := pipe s.pipeState }

/-- The warm-up loop `for _ in range(n): _ = pipe(payload)`: the pipeline is
invoked `n` times and no timing is recorded. -/
def warmupLoop {σ : Type*} (pipe : σ → σ) : ℕ → MeasureState σ → MeasureState σ
  | 0, s => s
  | n + 1, s => warmupLoop pipe n (invokePipe pipe s)

/-- The timed loop: each iteration reads `start_time`, invokes the pipeline,
reads the clock again and appends the elapsed difference to the accumulator
(python's `latencies.append`). -/
def timedLoop {σ : Type*} (pipe : σ → σ) (t : ℕ → ℚ) :
    ℕ → MeasureState σ → List ℚ → MeasureState σ × List ℚ
  | 0, s, acc => (s, acc)
  | n + 1, s, acc =>
    let r1 := perfCounter t s
    let s1 := invokePipe pipe r1.2
    let r2 := perfCounter t s1
    timedLoop pipe t n r2.2 (acc ++ [r2.1 - r1.1])

/-- The run statistics computed at the end of `measure_latency`.  The standard
deviation `time_std_ms` is irrational in general, so its square is carried:
`time_std_ms = Real.sqrt time_std_ms_sq`. -/
structure LatencyStats where
  time_avg_ms : ℚ
  time_std_ms_sq : ℚ
  time_p95_ms : ℚ
  deriving DecidableEq

/-- `measure_latency(pipe)`: 10 warm-up invocations, 300 timed invocations,
then the mean / standard deviation / 95th percentile of the recorded samples,
scaled to milliseconds.  The python function returns a formatted string
holding the three statistics together with `time_p95_ms`; the string is
represented by the `LatencyStats` record printed into it. -/
def measure_latency {σ : Type*} (pipe : σ → σ) (t : ℕ → ℚ) (s0 : MeasureState σ) :
    LatencyStats × ℚ :=
  let s1 := warmupLoop pipe 10 s0
  let r := timedLoop pipe t 300 s1 []
  let latencies := r.2
  let stats : LatencyStats :=
    { time_avg_ms := 1000 * npMean latencies
      time_std_ms_sq := 1000 ^ 2 * npVariance latencies
      time_p95_ms := 1000 * npPercentile latencies 95 }
  (stats, stats.time_p95_ms)

/-- The sample recorded by timed iteration `i` when the run has already made
`r0` clock reads as the timed loop starts: reads number `r0 + 2 i` and
`r0 + 2 i + 1` are that iteration's `start_time` and stop time. -/
def sampleAt (t : ℕ → ℚ) (r0 : ℕ) (i : ℕ) : ℚ :=
  t (r0 + 2 * i + 1) - t (r0 + 2 * i)

/-- The list of samples recorded by `n` timed iterations starting at read
count `r0`, in iteration order. -/
def measuredSamples (t : ℕ → ℚ) (r0 : ℕ) (n : ℕ) : List ℚ :=
  (List.range n).map (sampleAt t r0)

/-! ### Closed forms for the two loops -/

theorem warmupLoop_eq {σ : Type*} (pipe : σ → σ) :
    ∀ (n : ℕ) (s : MeasureState σ),
      warmupLoop pipe n s = ⟨pipe^[n] s.pipeState, s.reads⟩ := by
  intro n
  induction n with
  | zero => intro s; rfl
  | succ n ih =>
    intro s
    rw [warmupLoop, ih]
    simp [invokePipe, Function.iterate_succ_apply]

theorem measuredSamples_succ (t : ℕ → ℚ) (r0 n : ℕ) :
    measuredSamples t r0 (n + 1) =
      sampleAt t r0 0 :: measuredSamples t (r0 + 2) n := by
  unfold measuredSamples
  rw [List.range_succ_eq_map, List.map_cons, List.map_map]
  congr 1
  apply List.map_congr_left
  intro i _
  show sampleAt t r0 (i + 1) = sampleAt t (r0 + 2) i
  unfold sampleAt
  congr 2 <;> omega

theorem timedLoop_eq {σ : Type*} (pipe : σ → σ) (t : ℕ → ℚ) :
    ∀ (n : ℕ) (s : MeasureState σ) (acc : List ℚ),
      timedLoop pipe t n s acc =
        (⟨pipe^[n] s.pipeState, s.reads + 2 * n⟩, acc ++ measuredSamples t s.reads n) := by
  intro n
  induction n with
  | zero => intro s acc; simp [timedLoop, measuredSamples]
  | succ n ih =>
    intro s acc
    rw [timedLoop]
    simp only [perfCounter, invokePipe]
    rw [ih]
    simp only [measuredSamples_succ, Prod.mk.injEq, MeasureState.mk.injEq]
    refine ⟨⟨(Function.iterate_succ_apply pipe n s.pipeState).symm, by omega⟩, ?_⟩
    simp [sampleAt]

/-- Closed form of the whole benchmark run: after 10 untimed warm-up
invocations, the 300 timed iterations produce exactly the 300 consecutive
clock-read differences starting at the initial read count, and the statistics
are computed from that sample list. -/
theorem measure_latency_eq {σ : Type*} (pipe : σ → σ) (t : ℕ → ℚ) (s0 : MeasureState σ) :
    measure_latency pipe t s0 =
      ({ time_avg_ms := 1000 * npMean (measuredSamples t s0.reads 300)
         time_std_ms_sq := 1000 ^ 2 * npVariance (measuredSamples t s0.reads 300)
         time_p95_ms := 1000 * npPercentile (measuredSamples t s0.reads 300) 95 },
        1000 * npPercentile (measuredSamples t s0.reads 300) 95) := by
  unfold measure_latency
  simp only [warmupLoop_eq, timedLoop_eq, List.nil_append]

/-- The list `latencies` as it stands when the timed loop has finished: the
samples recorded by `measure_latency pipe t s0`, in recording order. -/
def recordedLatencies {σ : Type*} (pipe : σ → σ) (t : ℕ → ℚ) (s0 : MeasureState σ) : List ℚ :=
  (timedLoop pipe t 300 (warmupLoop pipe 10 s0) []).2

/-- Summing pointwise-dominated values over `List.range` preserves the
domination. -/
theorem sum_map_range_le (f g : ℕ → ℚ) :
    ∀ n : ℕ, (∀ i < n, f i ≤ g i) →
      ((List.range n).map f).sum ≤ ((List.range n).map g).sum := by
  intro n
  induction n with
  | zero => intro _; simp
  | succ n ih =>
    intro h
    rw [List.range_succ, List.map_append, List.map_append, List.sum_append, List.sum_append]
    have h1 := ih fun i hi => h i (by omega)
    have h2 := h n (by omega)
    simp only [List.map_cons, List.map_nil, List.sum_cons, List.sum_nil]
    linarith

/-- C1.  The latency benchmarker first runs warm-up invocations whose timings
are excluded from the result: the warm-up loop performs no clock read at all,
so the returned statistics are exactly the millisecond-scaled mean, standard
deviation (carried as its square, the population variance) and linear 95th
percentile of the 300 measured samples — the consecutive clock-read
differences taken after the warm-up — and the whole result is independent of
the pipeline's warm-up behaviour (even of the pipeline state type itself). -/
theorem measure_latency_stats_from_measured_samples_only
    (σ σ' : Type) (pipe : σ → σ) (pipe' : σ' → σ') (t : ℕ → ℚ) (a : σ) (a' : σ') (r : ℕ) :
    measure_latency pipe t ⟨a, r⟩ =
      ({ time_avg_ms := 1000 * npMean (measuredSamples t r 300)
         time_std_ms_sq := 1000 ^ 2 * npVariance (measuredSamples t r 300)
         time_p95_ms := 1000 * npPercentile (measuredSamples t r 300) 95 },
        1000 * npPercentile (measuredSamples t r 300) 95) ∧
    measure_latency pipe t ⟨a, r⟩ = measure_latency pipe' t ⟨a', r⟩ := by
  refine ⟨measure_latency_eq pipe t ⟨a, r⟩, ?_⟩
  rw [measure_latency_eq, measure_latency_eq]

/-- C10.  `measure_latency` performs exactly 10 warm-up invocations (the state
reaching the timed loop is `pipe^[10]` of the initial state, with no clock
read made), then exactly 300 timed invocations (the final state is
`pipe^[310]` of the initial one); the collected sample list has length exactly
300, every recorded sample is nonnegative whenever the clock stream is
monotone (as a performance counter is), and the function's second return value
is 1000 times the 95th percentile of those 300 samples. -/
theorem measure_latency_counts (σ : Type) (pipe : σ → σ) (t : ℕ → ℚ)
    (s0 : MeasureState σ) (hmono : Monotone t) :
    (warmupLoop pipe 10 s0).pipeState = pipe^[10] s0.pipeState ∧
    (warmupLoop pipe 10 s0).reads = s0.reads ∧
    (timedLoop pipe t 300 (warmupLoop pipe 10 s0) []).1.pipeState = pipe^[310] s0.pipeState ∧
    (recordedLatencies pipe t s0).length = 300 ∧
    (∀ x ∈ recordedLatencies pipe t s0, 0 ≤ x) ∧
    (measure_latency pipe t s0).2 = 1000 * npPercentile (recordedLatencies pipe t s0) 95 := by
  have hrec : recordedLatencies pipe t s0 = measuredSamples t s0.reads 300 := by
    unfold recordedLatencies
    rw [warmupLoop_eq, timedLoop_eq]
    simp
  refine ⟨by rw [warmupLoop_eq], by rw [warmupLoop_eq], ?_, ?_, ?_, ?_⟩
  · rw [warmupLoop_eq, timedLoop_eq]
    show pipe^[300] (pipe^[10] s0.pipeState) = pipe^[310] s0.pipeState
    rw [← Function.iterate_add_apply]
  · rw [hrec]
    simp [measuredSamples]
  · intro x hx
    rw [hrec] at hx
    obtain ⟨i, _, rfl⟩ := List.mem_map.mp hx
    have hle : t (s0.reads + 2 * i) ≤ t (s0.reads + 2 * i + 1) := hmono (by omega)
    simpa [sampleAt] using hle
  · rw [hrec, measure_latency_eq]

/-- Concrete instantiation of `measure_latency_counts`: the successor pipeline
on `ℕ` with the constant-zero clock, whose monotonicity is immediate. -/
theorem measure_latency_counts_witness :
    (warmupLoop Nat.succ 10 (⟨0, 0⟩ : MeasureState ℕ)).pipeState =
        Nat.succ^[10] (⟨0, 0⟩ : MeasureState ℕ).pipeState ∧
    (warmupLoop Nat.succ 10 (⟨0, 0⟩ : MeasureState ℕ)).reads =
        (⟨0, 0⟩ : MeasureState ℕ).reads ∧
    (timedLoop Nat.succ (fun _ => (0 : ℚ)) 300
        (warmupLoop Nat.succ 10 (⟨0, 0⟩ : MeasureState ℕ)) []).1.pipeState =
        Nat.succ^[310] (⟨0, 0⟩ : MeasureState ℕ).pipeState ∧
    (recordedLatencies Nat.succ (fun _ => (0 : ℚ)) ⟨0, 0⟩).length = 300 ∧
    (∀ x ∈ recordedLatencies Nat.succ (fun _ => (0 : ℚ)) ⟨0, 0⟩, 0 ≤ x) ∧
    (measure_latency Nat.succ (fun _ => (0 : ℚ)) ⟨0, 0⟩).2 =
        1000 * npPercentile (recordedLatencies Nat.succ (fun _ => (0 : ℚ)) ⟨0, 0⟩) 95 :=
  measure_latency_counts ℕ Nat.succ (fun _ => (0 : ℚ)) ⟨0, 0⟩ monotone_const

/-- Modelled from the spec: the Quantizer's implementation is library code not
in this repository; §4.3 and the conclusion of the notebook describe the
quantized artifact as faster per inference call.  This predicate states that
premise for a benchmark run: each of the 300 measured invocations of the
quantized pipeline takes at most as long as the corresponding measured
invocation of the vanilla pipeline. -/
def QuantizedPerCallFaster (tQ tV : ℕ → ℚ) (rQ rV : ℕ) : Prop :=
  ∀ i < 300, sampleAt tQ rQ i ≤ sampleAt tV rV i

/-- C5.  When every measured invocation of the quantized pipeline is at most
as slow as the corresponding invocation of the unquantized pipeline (identical
payload and hardware, quantized artifact faster per call as the spec's
quantizer contract states), the mean latency reported by `measure_latency` for
the quantized pipeline is less than or equal to the mean reported for the
unquantized pipeline. -/
theorem quantized_mean_latency_le
    (σQ σV : Type) (pipeQ : σQ → σQ) (pipeV : σV → σV) (tQ tV : ℕ → ℚ)
    (sQ : MeasureState σQ) (sV : MeasureState σV)
    (h : QuantizedPerCallFaster tQ tV sQ.reads sV.reads) :
    (measure_latency pipeQ tQ sQ).1.time_avg_ms ≤
      (measure_latency pipeV tV sV).1.time_avg_ms := by
  rw [measure_latency_eq, measure_latency_eq]
  show 1000 * npMean (measuredSamples tQ sQ.reads 300) ≤
      1000 * npMean (measuredSamples tV sV.reads 300)
  have hsum : ((List.range 300).map (sampleAt tQ sQ.reads)).sum ≤
      ((List.range 300).map (sampleAt tV sV.reads)).sum :=
    sum_map_range_le _ _ 300 h
  unfold npMean measuredSamples
  simp only [List.length_map, List.length_range]
  have h300 : (0 : ℚ) < 300 := by norm_num
  have hdiv := (div_le_div_iff_of_pos_right h300).mpr hsum
  push_cast
  linarith

/-- Concrete instantiation of `quantized_mean_latency_le` at the constant-zero
clocks, where the per-call domination holds by reflexivity. -/
theorem quantized_mean_latency_le_witness :
    (measure_latency Nat.succ (fun _ => (0 : ℚ)) (⟨0, 0⟩ : MeasureState ℕ)).1.time_avg_ms ≤
      (measure_latency (id : ℕ → ℕ) (fun _ => (0 : ℚ)) (⟨0, 0⟩ : MeasureState ℕ)).1.time_avg_ms :=
  quantized_mean_latency_le ℕ ℕ Nat.succ id (fun _ => (0 : ℚ)) (fun _ => (0 : ℚ))
    ⟨0, 0⟩ ⟨0, 0⟩ fun _ _ => le_refl _

/-! ## Model artifacts and the quantizer (spec §3, §4.3)

The exporter, optimizer and quantizer are `optimum`/ONNX-Runtime library code
whose implementation is not part of this repository; the notebook only calls
them.  The data model below is modelled from the spec. -/

/-- Modelled from the spec: a Model Artifact is an immutable bundle of
computation graph, weights and metadata (task type, label mapping); the
weights are stored at a uniform precision of `weightBytes` bytes each
(4 for `float32`, 1 for `int8`).  The artifact implementation (`optimum`
library) is not in the repository. -/
structure ModelArtifact where
  graphBytes : ℕ
  weights : List ℤ
  weightBytes : ℕ
  taskType : String
  label2id : List (String × ℕ)
  id2label : List (ℕ × String)
  deriving DecidableEq

/-- Storage size of an artifact file: the graph/metadata bytes plus one
`weightBytes`-wide slot per weight. -/
def storageSize (a : ModelArtifact) : ℕ :=
  a.graphBytes + a.weights.length * a.weightBytes

/-- Modelled from the spec: a Quantization Configuration is an immutable
descriptor of target numeric precision and hardware instruction-set
assumptions (the notebook builds one with
`AutoQuantizationConfig.avx512_vnni(is_static=False, per_channel=False)`). -/
structure QuantizationConfig where
  is_static : Bool
  per_channel : Bool
  targetWeightBytes : ℕ
  deriving DecidableEq

/-- The `avx512_vnni` preset used by the notebook: dynamic (non-static),
per-tensor, 8-bit (1-byte) integer weights. -/
def avx512_vnni (is_static per_channel : Bool) : QuantizationConfig :=
  { is_static := is_static, per_channel := per_channel, targetWeightBytes := 1 }

/-- A configuration is valid when its target precision is a genuine
reduction of full 4-byte precision: at least one byte, fewer than four. -/
def QuantizationConfig.valid (c : QuantizationConfig) : Prop :=
  1 ≤ c.targetWeightBytes ∧ c.targetWeightBytes < 4

/-- Modelled from the spec: `dynamic_quantizer.export` rewrites the weights
from full precision to the configured reduced precision (clamping the stored
values into the reduced range), leaving graph and metadata in place, and
returns the new artifact.  The quantization kernels themselves (`optimum`
library) are not in the repository. -/
def dynamic_quantizer_export (a : ModelArtifact) (cfg : QuantizationConfig) : ModelArtifact :=
  { a with
    weights := a.weights.map fun w => max (-128) (min 127 w)
    weightBytes := cfg.targetWeightBytes }

/-- C2.  For every artifact holding full-precision (4-byte `float32`) weights
— at least one weight — and every valid quantization configuration, the
storage size of the quantizer's output artifact is strictly smaller than the
storage size of its input artifact. -/
theorem quantizer_output_strictly_smaller (a : ModelArtifact) (cfg : QuantizationConfig)
    (hw : a.weightBytes = 4) (hne : a.weights ≠ []) (hcfg : cfg.valid) :
    storageSize (dynamic_quantizer_export a cfg) < storageSize a := by
  unfold storageSize dynamic_quantizer_export
  simp only [List.length_map]
  have hlen : 0 < a.weights.length := List.length_pos.mpr hne
  have hlt : cfg.targetWeightBytes < a.weightBytes := by
    rw [hw]; exact hcfg.2
  have := Nat.mul_lt_mul_of_le_of_lt (le_refl a.weights.length) hlt hlen
  omega

/-- Concrete instantiation of `quantizer_output_strictly_smaller`: a one-weight
`float32` artifact quantized with the notebook's `avx512_vnni` configuration
shrinks. -/
theorem quantizer_output_strictly_smaller_witness :
    storageSize (dynamic_quantizer_export
        ⟨100, [7], 4, "text-classification", [("card_loss", 0)], [(0, "card_loss")]⟩
        (avx512_vnni false false)) <
      storageSize ⟨100, [7], 4, "text-classification", [("card_loss", 0)], [(0, "card_loss")]⟩ :=
  quantizer_output_strictly_smaller
    ⟨100, [7], 4, "text-classification", [("card_loss", 0)], [(0, "card_loss")]⟩
    (avx512_vnni false false) rfl (by decide) (by constructor <;> decide)

/-! ## Stage output files (spec §3, §4.2, §4.3; claim C6)

The optimizer and quantizer are invoked with an input path and a distinct
output path (`model.onnx` → `model-optimized.onnx` → `model-quantized.onnx`).
A file store maps paths to file contents. -/

/-- A file store: each path holds either nothing or a byte list. -/
def FileStore : Type := String → Option (List ℕ)

/-- Modelled from the spec: `optimizer.export` reads the artifact at
`onnx_model_path`, applies the graph transformation `optimize` (an opaque
parameter: the rewrite kernels are library code not in the repository) and
writes the result at `onnx_optimized_model_output_path`, touching no other
path. -/
def optimizer_export (optimize : List ℕ → List ℕ) (store : FileStore)
    (inPath outPath : String) : FileStore :=
  fun p => if p = outPath then (store inPath).map optimize else store p

/-- Modelled from the spec: `dynamic_quantizer.export` on the file store, with
the quantization transformation `quantize` opaque, writing only the output
path. -/
def quantizer_export (quantize : List ℕ → List ℕ) (store : FileStore)
    (inPath outPath : String) : FileStore :=
  fun p => if p = outPath then (store inPath).map quantize else store p

/-- C6.  When the output path differs from the input path — as in the
notebook, `model.onnx` versus `model-optimized.onnx` and
`model-optimized.onnx` versus `model-quantized.onnx` — the Graph Optimizer and
the Quantizer leave the input artifact file byte-for-byte unchanged (and touch
no path other than their output path): each stage writes its result as a new,
separate artifact file. -/
theorem stages_never_mutate_input (optimize quantize : List ℕ → List ℕ) (store : FileStore)
    (inOpt outOpt inQ outQ : String) (h1 : inOpt ≠ outOpt) (h2 : inQ ≠ outQ) :
    optimizer_export optimize store inOpt outOpt inOpt = store inOpt ∧
    (∀ p, p ≠ outOpt → optimizer_export optimize store inOpt outOpt p = store p) ∧
    quantizer_export quantize store inQ outQ inQ = store inQ ∧
    (∀ p, p ≠ outQ → quantizer_export quantize store inQ outQ p = store p) := by
  refine ⟨?_, ?_, ?_, ?_⟩
  · simp [optimizer_export, h1]
  · intro p hp; simp [optimizer_export, hp]
  · simp [quantizer_export, h2]
  · intro p hp; simp [quantizer_export, hp]

/-- Concrete instantiation of `stages_never_mutate_input` at the notebook's
actual paths, on a store holding one file. -/
theorem stages_never_mutate_input_witness :
    optimizer_export id (fun _ => some [1, 2, 3]) "onnx/model.onnx"
        "onnx/model-optimized.onnx" "onnx/model.onnx" = some [1, 2, 3] ∧
    (∀ p, p ≠ "onnx/model-optimized.onnx" →
      optimizer_export id (fun _ => some [1, 2, 3]) "onnx/model.onnx"
        "onnx/model-optimized.onnx" p = some [1, 2, 3]) ∧
    quantizer_export id (fun _ => some [1, 2, 3]) "onnx/model-optimized.onnx"
        "onnx/model-quantized.onnx" "onnx/model-optimized.onnx" = some [1, 2, 3] ∧
    (∀ p, p ≠ "onnx/model-quantized.onnx" →
      quantizer_export id (fun _ => some [1, 2, 3]) "onnx/model-optimized.onnx"
        "onnx/model-quantized.onnx" p = some [1, 2, 3]) :=
  stages_never_mutate_input id id (fun _ => some [1, 2, 3])
    "onnx/model.onnx" "onnx/model-optimized.onnx"
    "onnx/model-optimized.onnx" "onnx/model-quantized.onnx"
    (by decide) (by decide)

/-! ## Publisher/Loader (spec §4.6; claims C7, C8)

`push_to_hub` and `from_pretrained` are model-hub client code not in the
repository; the registry below is modelled from the spec. -/

/-- Modelled from the spec: the Preprocessor State is the tokenizer/encoder
configuration paired with a Model Artifact (the tokenizer implementation is
library code not in the repository). -/
structure PreprocessorState where
  vocab : List String
  maxLength : ℕ
  deriving DecidableEq

/-- Modelled from the spec: the versioned bundle a publish uploads — a Model
Artifact together with its Preprocessor State. -/
structure Bundle where
  artifact : ModelArtifact
  preprocessor : PreprocessorState
  deriving DecidableEq

/-- The remote model registry: each repository identifier holds either nothing
or one complete bundle. -/
def Registry : Type := String → Option Bundle

/-- Modelled from the spec: `model.push_to_hub` uploads the bundle under the
destination repository identifier (hub client code, not in the repository). -/
def push_to_hub (reg : Registry) (repository_id : String) (b : Bundle) : Registry :=
  fun p => if p = repository_id then some b else reg p

/-- Modelled from the spec: `ORTModelForSequenceClassification.from_pretrained`
reconstructs the bundle stored under the source identifier (hub client code,
not in the repository). -/
def from_pretrained (reg : Registry) (model_id : String) : Option Bundle :=
  reg model_id

/-- C7.  Publish-then-Load round trip: loading from the identifier a bundle
was just published to returns that very bundle, so in particular the loaded
artifact's label mapping (`label2id` and `id2label` metadata) is exactly the
label mapping of the published artifact. -/
theorem push_then_load_preserves_label_mapping (reg : Registry) (rid : String) (b : Bundle) :
    from_pretrained (push_to_hub reg rid b) rid = some b ∧
    (from_pretrained (push_to_hub reg rid b) rid).map (fun x => x.artifact.label2id) =
      some b.artifact.label2id ∧
    (from_pretrained (push_to_hub reg rid b) rid).map (fun x => x.artifact.id2label) =
      some b.artifact.id2label := by
  refine ⟨?_, ?_, ?_⟩ <;> simp [from_pretrained, push_to_hub]

/-- The files making up an uploaded bundle: graph/weights, model
configuration (task type and label mapping), tokenizer configuration. -/
inductive BundlePart
  | graphFile
  | configFile
  | tokenizerFile
  deriving DecidableEq

/-- The parts a complete upload must transmit. -/
def requiredParts : List BundlePart :=
  [BundlePart.graphFile, BundlePart.configFile, BundlePart.tokenizerFile]

/-- The publish error reported when an upload does not complete. -/
inductive PublishFailure
  | partialUpload
  deriving DecidableEq

/-- A destination's state on the hub: nothing, or a bundle version together
with the parts of it present at the destination. -/
def HubDest : Type := Option (Bundle × List BundlePart)

/-- Modelled from the spec: an atomic publish.  The transport delivers the
first `sent` of the required parts; the publish commits the new version at the
destination only when every required part was transmitted, and otherwise
reports a `partialUpload` failure leaving the destination as it was.  The hub
transport itself is client/server code not in the repository. -/
def pushBundleAtomic (dest : HubDest) (b : Bundle) (sent : ℕ) :
    HubDest × Option PublishFailure :=
  let transmitted := requiredParts.take sent
  if transmitted.length = requiredParts.length
  then (some (b, transmitted), none)
  else (dest, some PublishFailure.partialUpload)

/-- C8.  Publish is atomic: whatever portion of the upload the transport
manages to deliver, the outcome is either a full success — the destination
holds the complete new bundle, all required parts present, and no error — or a
reported `partialUpload` failure with the destination left exactly as it was.
A partial upload is never left at the destination without an error. -/
theorem publish_atomic (dest : HubDest) (b : Bundle) (sent : ℕ) :
    pushBundleAtomic dest b sent = (some (b, requiredParts), none) ∨
    pushBundleAtomic dest b sent = (dest, some PublishFailure.partialUpload) := by
  unfold pushBundleAtomic
  by_cases h : (requiredParts.take sent).length = requiredParts.length
  · left
    have hle : requiredParts.length ≤ sent := by
      by_contra hlt
      rw [List.length_take] at h
      omega
    rw [if_pos h, List.take_of_length_le hle]
  · right
    simp only [if_neg h]

/-! ## Evaluator (spec §4.4; claims C3, C4)

`evaluator("text-classification").compute` is library code not in the
repository; the evaluator below is modelled from the spec. -/

/-- The evaluation error the spec requires for mismatched label mappings. -/
inductive EvalFailure
  | ConfigurationError
  deriving DecidableEq

/-- An Evaluation Result: a mapping from metric name to scalar value; here the
single metric the notebook requests, `accuracy`. -/
structure EvalResult where
  accuracy : ℚ
  deriving DecidableEq

/-- Look a predicted label string up in a label mapping (`label2id`). -/
def lookupLabel (mapping : List (String × ℕ)) (lbl : String) : Option ℕ :=
  (mapping.find? fun kv => kv.1 == lbl).map fun kv => kv.2

/-- Accuracy of a text-classification pipeline over a labeled dataset: the
fraction of (input, expected-label-id) pairs on which the pipeline's predicted
label string, sent through the label mapping, equals the expected id. -/
def accuracyScore (predict : String → String) (mapping : List (String × ℕ))
    (data : List (String × ℕ)) : ℚ :=
  (data.countP fun ex => lookupLabel mapping (predict ex.1) == some ex.2 : ℕ) /
    (data.length : ℕ)

/-- Modelled from the spec: `eval.compute` applies the supplied
`label_mapping` to the pipeline's predictions and scores them against the
labeled dataset; a supplied mapping that does not match the artifact's own
label mapping (the one fixed at export, `model.config.label2id`) signals a
`ConfigurationError` instead of returning a result.  The evaluator
implementation (`evaluate` library) is not in the repository. -/
def eval_compute (artifactLabel2id : List (String × ℕ)) (label_mapping : List (String × ℕ))
    (predict : String → String) (data : List (String × ℕ)) :
    Except EvalFailure EvalResult :=
  if label_mapping = artifactLabel2id
  then Except.ok { accuracy := accuracyScore predict label_mapping data }
  else Except.error EvalFailure.ConfigurationError

/-- C4.  The evaluator scores with exactly the label mapping fixed at export:
when the supplied mapping matches the artifact's, it returns the accuracy
computed through the artifact's own mapping, and whenever the supplied mapping
differs it signals `ConfigurationError` instead of returning a (wrong)
result. -/
theorem eval_compute_label_mapping_checked
    (am sm : List (String × ℕ)) (predict : String → String) (data : List (String × ℕ)) :
    eval_compute am am predict data =
      Except.ok { accuracy := accuracyScore predict am data } ∧
    (sm ≠ am → eval_compute am sm predict data =
      Except.error EvalFailure.ConfigurationError) := by
  constructor
  · simp [eval_compute]
  · intro h
    simp [eval_compute, h]

/-- Concrete instantiation of `eval_compute_label_mapping_checked`: its
mismatch half at a concrete mismatched mapping, its matching half at the
artifact's own mapping. -/
theorem eval_compute_label_mapping_checked_witness :
    eval_compute [("refund", 0)] [("refund", 0)] (fun _ => "refund") [("x", 0)] =
      Except.ok { accuracy := accuracyScore (fun _ => "refund") [("refund", 0)] [("x", 0)] } ∧
    eval_compute [("refund", 0)] [("refund", 1)] (fun _ => "refund") [("x", 0)] =
      Except.error EvalFailure.ConfigurationError :=
  ⟨(eval_compute_label_mapping_checked [("refund", 0)] [("refund", 1)]
      (fun _ => "refund") [("x", 0)]).1,
   (eval_compute_label_mapping_checked [("refund", 0)] [("refund", 1)]
      (fun _ => "refund") [("x", 0)]).2 (by decide)⟩

/-- C3.  The accuracy in the Evaluation Result is invariant under any
permutation of the labeled dataset: evaluating on a reordering of the
(input, expected-label) pairs returns the same result. -/
theorem eval_accuracy_permutation_invariant
    (am : List (String × ℕ)) (predict : String → String) (data data' : List (String × ℕ))
    (hperm : data.Perm data') :
    eval_compute am am predict data = eval_compute am am predict data' := by
  unfold eval_compute
  simp only [if_pos rfl]
  have hcount := hperm.countP_eq fun ex => lookupLabel am (predict ex.1) == some ex.2
  have hlen := hperm.length_eq
  unfold accuracyScore
  rw [hcount, hlen]

/-- Concrete instantiation of `eval_accuracy_permutation_invariant` at a
two-example dataset and its reversal. -/
theorem eval_accuracy_permutation_invariant_witness :
    eval_compute [("refund", 0), ("card_loss", 1)] [("refund", 0), ("card_loss", 1)]
        (fun _ => "refund") [("i want my money back", 0), ("my card is gone", 1)] =
      eval_compute [("refund", 0), ("card_loss", 1)] [("refund", 0), ("card_loss", 1)]
        (fun _ => "refund") [("my card is gone", 1), ("i want my money back", 0)] :=
  eval_accuracy_permutation_invariant [("refund", 0), ("card_loss", 1)] (fun _ => "refund")
    [("i want my money back", 0), ("my card is gone", 1)]
    [("my card is gone", 1), ("i want my money back", 0)]
    (List.Perm.swap _ _ _)

/-! ## Preprocessor copies at stage boundaries (claim C9)

The notebook's stage boundaries perform these writes (cells 5, 10, 14, 28):
export saves the exported model and the tokenizer into `onnx/`; the optimize
and quantize stages each write exactly one new graph file into `onnx/`; the
publish stage saves the model and the tokenizer into `onnx_hub_repo/` before
pushing.  Which files each library call writes is modelled from the spec's
persisted-artifact layout (graph/weights file, preprocessor configuration,
model configuration with task type and label mapping). -/

/-- The kind of a file a stage writes. -/
inductive FileKind
  | modelGraph
  | modelConfig
  | tokenizerState
  deriving DecidableEq

/-- One file written by a notebook call: target directory, file name and
kind. -/
structure StageWrite where
  dir : String
  file : String
  kind : FileKind
  deriving DecidableEq

/-- Files written by `model.save_pretrained(dir)`: the graph/weights file and
the model configuration. -/
def model_save_pretrained (dir fileName : String) : List StageWrite :=
  [⟨dir, fileName, FileKind.modelGraph⟩, ⟨dir, "config.json", FileKind.modelConfig⟩]

/-- Files written by `tokenizer.save_pretrained(dir)`: the preprocessor
(tokenizer) configuration. -/
def tokenizer_save_pretrained (dir : String) : List StageWrite :=
  [⟨dir, "tokenizer_config.json", FileKind.tokenizerState⟩]

/-- Export stage boundary (cell 5): `model.save_pretrained(onnx_path)` then
`tokenizer.save_pretrained(onnx_path)`. -/
def exportStageWrites : List StageWrite :=
  model_save_pretrained "onnx" "model.onnx" ++ tokenizer_save_pretrained "onnx"

/-- Optimize stage boundary (cell 10): `optimizer.export` writes only
`onnx/model-optimized.onnx`. -/
def optimizeStageWrites : List StageWrite :=
  [⟨"onnx", "model-optimized.onnx", FileKind.modelGraph⟩]

/-- Quantize stage boundary (cell 14): `dynamic_quantizer.export` writes only
`onnx/model-quantized.onnx`. -/
def quantizeStageWrites : List StageWrite :=
  [⟨"onnx", "model-quantized.onnx", FileKind.modelGraph⟩]

/-- Publish stage boundary (cell 28): `model.save_pretrained` and
`tokenizer.save_pretrained` into `onnx_hub_repo`, which is then pushed. -/
def publishStageWrites : List StageWrite :=
  model_save_pretrained "onnx_hub_repo" "model.onnx" ++
    tokenizer_save_pretrained "onnx_hub_repo"

/-- All files the pipeline writes, in stage order. -/
def pipelineWrites : List StageWrite :=
  exportStageWrites ++ optimizeStageWrites ++ quantizeStageWrites ++ publishStageWrites

/-- A stage boundary copies the Preprocessor State alongside its output when
its writes include a tokenizer-state file. -/
def copiesPreprocessor (writes : List StageWrite) : Prop :=
  ∃ w ∈ writes, w.kind = FileKind.tokenizerState

/-- C9, counterexample.  The optimize stage boundary writes its output
artifact but no copy of the Preprocessor State (and neither does the quantize
stage boundary): the claim that the Preprocessor State is copied alongside the
output at every stage boundary fails at the optimize stage. -/
theorem optimize_stage_copies_no_preprocessor :
    ¬ copiesPreprocessor optimizeStageWrites ∧
    ¬ copiesPreprocessor quantizeStageWrites ∧
    optimizeStageWrites ≠ [] ∧ quantizeStageWrites ≠ [] := by
  refine ⟨?_, ?_, by decide, by decide⟩ <;>
    · intro h
      obtain ⟨w, hw, hk⟩ := h
      simp [optimizeStageWrites, quantizeStageWrites] at hw
      simp [hw] at hk

/-- C9, amended.  The Preprocessor State is saved alongside the output
artifact at the export and publish stage boundaries only; the optimize and
quantize boundaries write just their single output graph file, into the same
`onnx` directory that already holds the exported Preprocessor State, so the
three artifacts in that directory share one preprocessor copy rather than each
being paired with its own. -/
theorem preprocessor_copied_only_at_export_and_publish :
    copiesPreprocessor exportStageWrites ∧
    copiesPreprocessor publishStageWrites ∧
    ¬ copiesPreprocessor optimizeStageWrites ∧
    ¬ copiesPreprocessor quantizeStageWrites ∧
    (∀ w ∈ optimizeStageWrites ++ quantizeStageWrites, w.dir = "onnx") ∧
    (∃ w ∈ exportStageWrites, w.dir = "onnx" ∧ w.kind = FileKind.tokenizerState) ∧
    (pipelineWrites.countP fun w =>
      w.dir == "onnx" && w.kind == FileKind.tokenizerState) = 1 ∧
    (pipelineWrites.countP fun w =>
      w.dir == "onnx" && w.kind == FileKind.modelGraph) = 3 := by
  refine ⟨⟨⟨"onnx", "tokenizer_config.json", FileKind.tokenizerState⟩, by decide, rfl⟩,
    ⟨⟨"onnx_hub_repo", "tokenizer_config.json", FileKind.tokenizerState⟩, by decide, rfl⟩,
    ?_, ?_, by decide, ?_, by decide, by decide⟩
  · intro h
    obtain ⟨w, hw, hk⟩ := h
    simp [optimizeStageWrites] at hw
    simp [hw] at hk
  · intro h
    obtain ⟨w, hw, hk⟩ := h
    simp [quantizeStageWrites] at hw
    simp [hw] at hk
  · exact ⟨⟨"onnx", "tokenizer_config.json", FileKind.tokenizerState⟩, by decide, rfl, rfl⟩

end OptimumPipeline
